import Mathlib

/-
Verification of the knowledge-base retrieval subsystem of the ISS chatbot
backend (src/app.py, src/rag_indexer.py): a shallow embedding of the
Document Store, the faiss vector index, the index-rebuild coordinator and
the retrieval function, with theorems checking the specified properties.
-/

namespace ISS

/-- Embedding vector produced by the Embedding Gateway
(EMBED_MODEL.encode in src/app.py): a fixed-length numeric vector,
modelled with integer coordinates. -/
abbrev Vec := List Int

/-- Squared Euclidean (L2) distance, the metric of faiss.IndexFlatL2. -/
def sqDist (u v : Vec) : Int :=
  ((u.zip v).map (fun p => (p.1 - p.2) * (p.1 - p.2))).sum

/-- A row of the knowledge_base table (class KBEntry, src/app.py:41-45). -/
structure KBRow where
  id : Nat
  title : String
  content : String
deriving DecidableEq, Repr

/-- One entry of the in-memory mapping list: the dict with keys
"title" and "content" built in build_index_from_db (src/app.py:87). -/
structure Doc where
  title : String
  content : String
deriving DecidableEq, Repr

/-- The in-memory faiss.IndexFlatL2: an ordered sequence of vectors,
slot i holding the vector added at position i. -/
structure FaissIndex where
  vecs : List Vec
deriving DecidableEq, Repr

/-- Number of vectors stored in the index (faiss ntotal). -/
def FaissIndex.ntotal (idx : FaissIndex) : Nat := idx.vecs.length

/-- Ranking of search hits: ascending distance, ties by lower slot. -/
def hitLE (a b : Nat × Int) : Bool :=
  a.2 < b.2 || (a.2 == b.2 && a.1 ≤ b.1)

/-- Insert one scored hit into a ranked list. -/
def insertHit (x : Nat × Int) : List (Nat × Int) → List (Nat × Int)
  | [] => [x]
  | y :: ys => if hitLE x y then x :: y :: ys else y :: insertHit x ys

/-- Rank all scored hits by ascending distance. -/
def sortHits : List (Nat × Int) → List (Nat × Int)
  | [] => []
  | x :: xs => insertHit x (sortHits xs)

/-- Distance faiss reports for padding slots when k exceeds ntotal
(stands in for the float maximum). -/
def padDist : Int := 2 ^ 128

/-- faiss IndexFlatL2.search: returns exactly k (label, distance) pairs;
the first min(k, ntotal) are the nearest stored vectors in
ascending-distance order, and the remaining slots are padded with
label -1 and a maximal distance. -/
def FaissIndex.search (idx : FaissIndex) (q : Vec) (k : Nat) :
    List (Int × Int) :=
  let scored := idx.vecs.enum.map (fun p => (p.1, sqDist q p.2))
  let top := ((sortHits scored).take (min k idx.ntotal)).map
    (fun p => ((p.1 : Int), p.2))
  top ++ List.replicate (k - min k idx.ntotal) ((-1 : Int), padDist)

/-- The mutable process state of src/app.py: the database table rows in
rowid order, the globals faiss_index and mapping, the contents of the two
snapshot files (INDEX_PATH and MAPPING_PATH, none when absent), and an
instrumentation counter of build_index_from_db invocations. -/
structure AppState where
  store : List KBRow
  faissIndex : Option FaissIndex
  mapping : List Doc
  diskIndex : Option FaissIndex
  diskMapping : Option (List Doc)
  rebuilds : Nat
deriving DecidableEq, Repr

/-- build_index_from_db (src/app.py:84-98), with the Embedding Gateway
modelled by embed and its success by ok.  Mirrors the statement order of
the Python: the global mapping is reassigned first (line 87); an empty
mapping clears faiss_index and returns before any file write (lines
88-90); otherwise EMBED_MODEL.encode runs (line 92, raising when
ok = false, which leaves everything after it unexecuted), then the index
is built, both snapshot files are written, and faiss_index is replaced
(lines 93-98).  The returned Bool is false exactly when the encode call
raised and the exception propagated.  The rebuilds counter counts
invocations. -/
def buildIndexFromDb (embed : String → Vec) (ok : Bool) (st : AppState) :
    AppState × Bool :=
  let st0 : AppState := { st with rebuilds := st.rebuilds + 1 }
  let newMapping := st0.store.map (fun r => Doc.mk r.title r.content)
  let st1 : AppState := { st0 with mapping := newMapping }
  if newMapping.isEmpty then
    ({ st1 with faissIndex := none }, true)
  else if ok then
    let idx : FaissIndex := ⟨(newMapping.map (fun d => d.content)).map embed⟩
    ({ st1 with faissIndex := some idx, diskIndex := some idx,
                diskMapping := some newMapping }, true)
  else
    (st1, false)

/-- The state after a rebuild whose Embedding Gateway call succeeds. -/
def rebuilt (embed : String → Vec) (st : AppState) : AppState :=
  (buildIndexFromDb embed true st).1

/-- Python list indexing xs[i], including negative indices (xs[-1] is
the last element); none models an IndexError. -/
def pyGet (xs : List α) (i : Int) : Option α :=
  let j : Int := if i < 0 then (xs.length : Int) + i else i
  if j < 0 then none else xs.get? j.toNat

/-- retrieve_context (src/app.py:126-135).  Returns none when the body
raises (an IndexError on mapping[i]), otherwise the newline-joined
context.  The guard on line 133 is the Python test i < len(mapping),
which a padding label -1 also passes. -/
def retrieveContext (embed : String → Vec) (st : AppState) (q : String)
    (k : Nat) : Option String :=
  match st.faissIndex with
  | none => some ""
  | some idx =>
    if idx.ntotal = 0 then some ""
    else
      let labels := (idx.search (embed q) k).map (fun p => p.1)
      let kept := labels.filter (fun i => i < (st.mapping.length : Int))
      (kept.mapM (fun i => pyGet st.mapping i)).map
        (fun ds => String.intercalate "\n" (ds.map (fun d => d.content)))

/-- retrieve_context with top_k left at its declared default of 3. -/
def retrieveContextDefault (embed : String → Vec) (st : AppState)
    (q : String) : Option String :=
  retrieveContext embed st q 3

/-- Id assigned to a freshly inserted KBEntry row.  The schema
(src/app.py:41-45, with the default sqlite DATABASE_URL) declares id as
an SQLite INTEGER PRIMARY KEY without AUTOINCREMENT, so the database
assigns one more than the largest id currently in the table (1 when the
table is empty); the id of a deleted row is therefore reassigned when it
was the maximum. -/
def nextId (store : List KBRow) : Nat :=
  (store.map (fun r => r.id)).foldr max 0 + 1

/-- add_kb (src/app.py:187-193): insert and commit the row, then rebuild.
Returns the state, whether the rebuild succeeded (the commit stands
either way), and the id assigned to the new row. -/
def add_kb (embed : String → Vec) (ok : Bool) (item : Doc)
    (st : AppState) : AppState × Bool × Nat :=
  let rid := nextId st.store
  let st1 : AppState :=
    { st with store := st.store ++ [KBRow.mk rid item.title item.content] }
  let p := buildIndexFromDb embed ok st1
  (p.1, p.2, rid)

/-- update_kb (src/app.py:195-204): a 404 Not found (result none) is
raised before any change when the id is absent; otherwise the new fields
are committed and the index rebuilt (some b, b the rebuild outcome). -/
def update_kb (embed : String → Vec) (ok : Bool) (entryId : Nat)
    (item : Doc) (st : AppState) : AppState × Option Bool :=
  if st.store.any (fun r => r.id == entryId) then
    let st1 : AppState := { st with store := st.store.map (fun r =>
      if r.id == entryId then KBRow.mk r.id item.title item.content else r) }
    let p := buildIndexFromDb embed ok st1
    (p.1, some p.2)
  else
    (st, none)

/-- delete_kb (src/app.py:206-214): a 404 Not found (result none) when
the id is absent; otherwise the row is deleted and the index rebuilt. -/
def delete_kb (embed : String → Vec) (ok : Bool) (entryId : Nat)
    (st : AppState) : AppState × Option Bool :=
  if st.store.any (fun r => r.id == entryId) then
    let st1 : AppState :=
      { st with store := st.store.filter (fun r => !(r.id == entryId)) }
    let p := buildIndexFromDb embed ok st1
    (p.1, some p.2)
  else
    (st, none)

/-- init_index (src/app.py:101-124): warm build from the store when it is
non-empty; otherwise, when the static data/knowledge_base.json file
exists (staticKB = some docs), the mapping is set from the file and an
index is built from it (an empty file raises at the dimension access on
line 116, after the mapping was already set, as does a failing encode);
when the file is absent nothing changes. -/
def initIndex (embed : String → Vec) (ok : Bool)
    (staticKB : Option (List Doc)) (st : AppState) : AppState × Bool :=
  if st.store.length > 0 then
    buildIndexFromDb embed ok st
  else
    match staticKB with
    | none => (st, true)
    | some docs =>
      let st1 : AppState := { st with mapping := docs }
      if docs.isEmpty then
        (st1, false)
      else if ok then
        let idx : FaissIndex := ⟨(docs.map (fun d => d.content)).map embed⟩
        ({ st1 with faissIndex := some idx, diskIndex := some idx,
                    diskMapping := some docs }, true)
      else
        (st1, false)

/-- An authorized mutation request against the HTTP surface. -/
inductive Op where
  | add (item : Doc)
  | upd (entryId : Nat) (item : Doc)
  | del (entryId : Nat)

/-- One authorized mutation with the Embedding Gateway succeeding.
Returns the new state and whether the store mutation was committed
(false exactly on a 404 Not found). -/
def stepOp (embed : String → Vec) (st : AppState) : Op → AppState × Bool
  | Op.add item =>
    let p := add_kb embed true item st
    (p.1, true)
  | Op.upd i item =>
    let p := update_kb embed true i item st
    (p.1, p.2.isSome)
  | Op.del i =>
    let p := delete_kb embed true i st
    (p.1, p.2.isSome)

/-- Run a sequence of mutations, counting the committed ones. -/
def runOps (embed : String → Vec) : List Op → AppState → AppState × Nat
  | [], st => (st, 0)
  | op :: ops, st =>
    let p := stepOp embed st op
    let q := runOps embed ops p.1
    (q.1, (if p.2 then 1 else 0) + q.2)

/-- Whether the global faiss index is absent or holds no vectors. -/
def indexAbsentOrEmpty (st : AppState) : Bool :=
  match st.faissIndex with
  | none => true
  | some idx => idx.ntotal == 0

/-- The (label, distance) rows a search of the current in-memory index
returns for a query vector. -/
def searchState (st : AppState) (q : Vec) (k : Nat) : List (Int × Int) :=
  match st.faissIndex with
  | none => []
  | some idx => idx.search q k

/-- A concrete deterministic embedding used for witnesses. -/
def embedA (s : String) : Vec := [(s.length : Int), 7]

/-- A concrete stored row used for witnesses. -/
def rowA : KBRow := ⟨1, "Ruqyah", "Ruqyah is recitation."⟩

/-- A concrete document used for witnesses. -/
def docB : Doc := ⟨"Sihir", "b"⟩

/-- The pristine process state: empty table, no index, no files. -/
def stEmpty : AppState := ⟨[], none, [], none, none, 0⟩

/-- A state holding one indexed row, used for witnesses. -/
def stA : AppState := ⟨[rowA], none, [], none, none, 0⟩

theorem buildIndexFromDb_empty (embed : String → Vec) (ok : Bool)
    (st : AppState) (h : st.store = []) :
    buildIndexFromDb embed ok st =
      ({ st with mapping := [], faissIndex := none,
                 rebuilds := st.rebuilds + 1 }, true) := by
  unfold buildIndexFromDb
  simp [h]

theorem buildIndexFromDb_ok (embed : String → Vec) (st : AppState)
    (h : st.store ≠ []) :
    buildIndexFromDb embed true st =
      ({ st with
          mapping := st.store.map (fun r => Doc.mk r.title r.content),
          faissIndex := some ⟨st.store.map (fun r => embed r.content)⟩,
          diskIndex := some ⟨st.store.map (fun r => embed r.content)⟩,
          diskMapping := some (st.store.map (fun r => Doc.mk r.title r.content)),
          rebuilds := st.rebuilds + 1 }, true) := by
  unfold buildIndexFromDb
  simp [h, List.map_map, Function.comp]

theorem buildIndexFromDb_fail (embed : String → Vec) (st : AppState)
    (h : st.store ≠ []) :
    buildIndexFromDb embed false st =
      ({ st with
          mapping := st.store.map (fun r => Doc.mk r.title r.content),
          rebuilds := st.rebuilds + 1 }, false) := by
  unfold buildIndexFromDb
  simp [h]

theorem buildIndexFromDb_store (embed : String → Vec) (ok : Bool)
    (st : AppState) : ((buildIndexFromDb embed ok st).1).store = st.store := by
  by_cases h : st.store = []
  · rw [buildIndexFromDb_empty embed ok st h]
  · cases ok
    · rw [buildIndexFromDb_fail embed st h]
    · rw [buildIndexFromDb_ok embed st h]

theorem buildIndexFromDb_rebuilds (embed : String → Vec) (ok : Bool)
    (st : AppState) :
    ((buildIndexFromDb embed ok st).1).rebuilds = st.rebuilds + 1 := by
  by_cases h : st.store = []
  · rw [buildIndexFromDb_empty embed ok st h]
  · cases ok
    · rw [buildIndexFromDb_fail embed st h]
    · rw [buildIndexFromDb_ok embed st h]

/-- C1: after a rebuild whose Embedding Gateway call succeeds, the
in-memory mapping has the length of the Document Store count, slot i of
the mapping carries the title and content of the i-th stored row, and
(when the store is non-empty, so an index exists) the vector at slot i
of the index is the embedding of mapping entry i's content. -/
theorem rebuild_mapping_matches_store (embed : String → Vec)
    (st : AppState) :
    (buildIndexFromDb embed true st).2 = true ∧
    (rebuilt embed st).mapping.length = (rebuilt embed st).store.length ∧
    (∀ i : Nat, (rebuilt embed st).mapping[i]? =
      ((rebuilt embed st).store[i]?).map (fun r => Doc.mk r.title r.content)) ∧
    ((rebuilt embed st).store ≠ [] → ∃ idx,
      (rebuilt embed st).faissIndex = some idx ∧
      idx.ntotal = (rebuilt embed st).mapping.length ∧
      ∀ i : Nat, idx.vecs[i]? =
        ((rebuilt embed st).mapping[i]?).map (fun d => embed d.content)) := by
  unfold rebuilt
  by_cases h : st.store = []
  · rw [buildIndexFromDb_empty embed true st h]
    simp [h]
  · rw [buildIndexFromDb_ok embed st h]
    refine ⟨rfl, by simp, fun i => by simp [List.getElem?_map], fun _ => ?_⟩
    refine ⟨_, rfl, by simp [FaissIndex.ntotal], fun i => ?_⟩
    simp only [List.getElem?_map]
    cases st.store[i]? <;> rfl

theorem rebuild_mapping_matches_store_witness :
    ∃ idx, (rebuilt embedA stA).faissIndex = some idx ∧
      idx.ntotal = (rebuilt embedA stA).mapping.length ∧
      ∀ i : Nat, idx.vecs[i]? =
        ((rebuilt embedA stA).mapping[i]?).map (fun d => embedA d.content) :=
  (rebuild_mapping_matches_store embedA stA).2.2.2 (by decide)

/-- C10: a rebuild against an empty Document Store replaces the in-memory
mapping with the empty list and clears the in-memory index, but returns
before the snapshot files are written, so both disk artifacts keep their
previous contents. -/
theorem empty_rebuild_leaves_disk (embed : String → Vec) (ok : Bool)
    (st : AppState) (h : st.store = []) :
    buildIndexFromDb embed ok st =
      ({ st with mapping := [], faissIndex := none,
                 rebuilds := st.rebuilds + 1 }, true) ∧
    ((buildIndexFromDb embed ok st).1).diskIndex = st.diskIndex ∧
    ((buildIndexFromDb embed ok st).1).diskMapping = st.diskMapping := by
  rw [buildIndexFromDb_empty embed ok st h]
  exact ⟨rfl, rfl, rfl⟩

/-- C2: starting from a one-row store whose index is built, an add whose
rebuild fails at the Embedding Gateway leaves shared state partially
updated: the committed row stands and faiss_index still holds the old
1-vector index, but the global mapping has already been replaced by the
2-entry post-mutation mapping, so mapping and index disagree in length. -/
theorem failed_rebuild_leaves_mapping_updated :
    ((add_kb embedA false docB (rebuilt embedA stA)).1).store.length = 2 ∧
    (add_kb embedA false docB (rebuilt embedA stA)).2.1 = false ∧
    ((add_kb embedA false docB (rebuilt embedA stA)).1).mapping =
      [Doc.mk "Ruqyah" "Ruqyah is recitation.", Doc.mk "Sihir" "b"] ∧
    ((add_kb embedA false docB (rebuilt embedA stA)).1).faissIndex =
      (rebuilt embedA stA).faissIndex ∧
    ((add_kb embedA false docB (rebuilt embedA stA)).1).faissIndex =
      some ⟨[[21, 7]]⟩ ∧
    ((add_kb embedA false docB (rebuilt embedA stA)).1).mapping.length ≠
      FaissIndex.ntotal ⟨[[21, 7]]⟩ := by decide

/-- C3: with a single-entry corpus and the default top_k of 3, faiss pads
the missing labels with -1; the Python guard i < len(mapping) passes for
-1 and mapping[-1] selects the last entry, so retrieve returns the sole
content three times instead of clamping top_k to the corpus size. -/
theorem retrieve_pads_duplicate_content :
    retrieveContextDefault embedA (rebuilt embedA stA) "q" =
      some "Ruqyah is recitation.\nRuqyah is recitation.\nRuqyah is recitation." ∧
    "Ruqyah is recitation.\nRuqyah is recitation.\nRuqyah is recitation." ≠
      "Ruqyah is recitation." := by decide

/-- C4 counterexample: with an empty Document Store but a static
knowledge_base.json file present, init_index builds an index from the
file, so the vector index is not left unset. -/
theorem init_with_static_file_builds_index :
    stEmpty.store.length = 0 ∧
    ((initIndex embedA true (some [docB]) stEmpty).1).faissIndex ≠ none := by
  decide

/-- C4 amended: at process start, when the store is empty and the static
KB file is absent, the state is left untouched (index absent) and
retrieval short-circuits to the empty string; a warm build from store
contents runs exactly when the store is non-empty; but when the store is
empty and a static KB file exists the index is built from that file
instead of being left unset. -/
theorem init_empty_store_no_static (embed : String → Vec)
    (kb : Option (List Doc)) (st : AppState) :
    (st.store = [] → initIndex embed true none st = (st, true)) ∧
    (st.faissIndex = none → ∀ (q : String) (k : Nat),
      retrieveContext embed st q k = some "") ∧
    (st.store ≠ [] → initIndex embed true kb st = buildIndexFromDb embed true st) := by
  refine ⟨fun h => ?_, fun h q k => ?_, fun h => ?_⟩
  · unfold initIndex
    simp [h]
  · simp [retrieveContext, h]
  · unfold initIndex
    simp [List.length_pos, h]

theorem init_empty_store_no_static_witness :
    initIndex embedA true none stEmpty = (stEmpty, true) ∧
    retrieveContext embedA stEmpty "q" 3 = some "" ∧
    initIndex embedA true none stA = buildIndexFromDb embedA true stA :=
  ⟨(init_empty_store_no_static embedA none stEmpty).1 rfl,
   (init_empty_store_no_static embedA none stEmpty).2.1 rfl "q" 3,
   (init_empty_store_no_static embedA none stA).2.2 (by decide)⟩

/-- C5: update and delete on an id not present in the store fail with the
404 Not found before any change: the returned state is exactly the input
state, so the count, the stored rows, the index, the mapping, the
snapshot files and the rebuild counter are all untouched. -/
theorem notfound_leaves_state_unchanged (embed : String → Vec) (ok : Bool)
    (entryId : Nat) (item : Doc) (st : AppState)
    (h : ∀ r ∈ st.store, r.id ≠ entryId) :
    update_kb embed ok entryId item st = (st, none) ∧
    delete_kb embed ok entryId st = (st, none) := by
  have hany : (st.store.any (fun r => r.id == entryId)) = false := by
    rw [List.any_eq_false]
    intro r hr
    simpa using h r hr
  constructor
  · unfold update_kb
    simp [hany]
  · unfold delete_kb
    simp [hany]

theorem notfound_leaves_state_unchanged_witness :
    update_kb embedA true 5 docB stA = (stA, none) ∧
    delete_kb embedA true 5 stA = (stA, none) :=
  notfound_leaves_state_unchanged embedA true 5 docB stA (by decide)

theorem empty_rebuild_leaves_disk_witness :
    buildIndexFromDb embedA true stEmpty =
      ({ stEmpty with mapping := [], faissIndex := none,
                      rebuilds := stEmpty.rebuilds + 1 }, true) ∧
    ((buildIndexFromDb embedA true stEmpty).1).diskIndex = stEmpty.diskIndex ∧
    ((buildIndexFromDb embedA true stEmpty).1).diskMapping = stEmpty.diskMapping :=
  empty_rebuild_leaves_disk embedA true stEmpty rfl

/-- C6: when the faiss index is absent or holds no vectors, retrieve
returns the empty string (never an error), and in particular after a
rebuild against an empty Document Store retrieve returns the empty
string for every query. -/
theorem retrieve_short_circuits (embed : String → Vec) (st : AppState)
    (q : String) (k : Nat) (h : indexAbsentOrEmpty st = true) :
    retrieveContext embed st q k = some "" ∧
    (∀ st2 : AppState, st2.store = [] →
      retrieveContext embed (rebuilt embed st2) q k = some "") := by
  constructor
  · rcases hidx : st.faissIndex with _ | idx
    · simp [retrieveContext, hidx]
    · have hnt : idx.ntotal = 0 := by
        unfold indexAbsentOrEmpty at h
        rw [hidx] at h
        simpa using h
      simp [retrieveContext, hidx, hnt]
  · intro st2 h2
    unfold rebuilt
    rw [buildIndexFromDb_empty embed true st2 h2]
    rfl

theorem retrieve_short_circuits_witness :
    retrieveContext embedA stEmpty "q" 3 = some "" ∧
    retrieveContext embedA (rebuilt embedA stEmpty) "q" 3 = some "" :=
  ⟨(retrieve_short_circuits embedA stEmpty "q" 3 (by decide)).1,
   (retrieve_short_circuits embedA stEmpty "q" 3 (by decide)).2 stEmpty rfl⟩

theorem stepOp_rebuilds (embed : String → Vec) (st : AppState) (op : Op) :
    ((stepOp embed st op).1).rebuilds =
      st.rebuilds + (if (stepOp embed st op).2 then 1 else 0) := by
  cases op with
  | add item =>
    simp only [stepOp, add_kb]
    rw [buildIndexFromDb_rebuilds]
    simp
  | upd i item =>
    by_cases hc : (st.store.any (fun r => r.id == i)) = true
    · simp only [stepOp, update_kb, hc, if_true]
      rw [buildIndexFromDb_rebuilds]
      simp
    · simp only [stepOp, update_kb, hc, if_false]
      simp
  | del i =>
    by_cases hc : (st.store.any (fun r => r.id == i)) = true
    · simp only [stepOp, delete_kb, hc, if_true]
      rw [buildIndexFromDb_rebuilds]
      simp
    · simp only [stepOp, delete_kb, hc, if_false]
      simp

/-- C7: with no Embedding Gateway failures, every committed mutation
triggers exactly one synchronous full rebuild before it is acknowledged:
over any sequence of authorized mutation requests, the rebuild counter
grows by exactly the number of committed mutations. -/
theorem rebuild_count_eq_mutation_count (embed : String → Vec)
    (ops : List Op) (st : AppState) :
    ((runOps embed ops st).1).rebuilds = st.rebuilds + (runOps embed ops st).2 := by
  induction ops generalizing st with
  | nil => simp [runOps]
  | cons op ops ih =>
    simp only [runOps]
    rw [ih, stepOp_rebuilds]
    rw [Nat.add_assoc]

/-- State after the first add of the id-reuse scenario. -/
def stC8a : AppState := (add_kb embedA true (Doc.mk "A" "a") stEmpty).1

/-- State after the second add of the id-reuse scenario. -/
def stC8b : AppState := (add_kb embedA true (Doc.mk "B" "b") stC8a).1

/-- State after deleting entry 2 in the id-reuse scenario. -/
def stC8c : AppState := (delete_kb embedA true 2 stC8b).1

/-- C8 counterexample: add twice (assigning ids 1 and 2), delete the
entry with id 2, then add again: the new entry receives id 2 — the id of
a previously deleted entry is reused. -/
theorem deleted_id_reused :
    (add_kb embedA true (Doc.mk "B" "b") stC8a).2.2 = 2 ∧
    (delete_kb embedA true 2 stC8b).2 = some true ∧
    (add_kb embedA true (Doc.mk "C" "c") stC8c).2.2 = 2 := by decide

theorem le_foldr_max (l : List Nat) (x : Nat) (hx : x ∈ l) :
    x ≤ l.foldr max 0 := by
  induction l with
  | nil => cases hx
  | cons a t ih =>
    rcases List.mem_cons.mp hx with h | h
    · subst h
      exact le_max_left _ _
    · exact le_trans (ih h) (le_max_right _ _)

/-- C8 amended: each add assigns an id strictly greater than every id
currently in the store, hence unique among live entries; but the id of
a previously deleted entry is reassigned when that id was the maximum
(SQLite INTEGER PRIMARY KEY without AUTOINCREMENT). -/
theorem add_id_fresh_among_live (embed : String → Vec) (ok : Bool)
    (item : Doc) (st : AppState) :
    ∀ r ∈ st.store, r.id < (add_kb embed ok item st).2.2 := by
  intro r hr
  have hrid : (add_kb embed ok item st).2.2 = nextId st.store := rfl
  rw [hrid]
  unfold nextId
  have hmem : r.id ∈ st.store.map (fun r => r.id) := List.mem_map_of_mem _ hr
  have hle := le_foldr_max (st.store.map (fun r => r.id)) r.id hmem
  omega

theorem add_id_fresh_among_live_witness :
    rowA.id < (add_kb embedA true docB stA).2.2 :=
  add_id_fresh_among_live embedA true docB stA rowA (by decide)

theorem rebuilt_of_store_eq (embed : String → Vec) (st1 st2 : AppState)
    (h : st1.store = st2.store) :
    (rebuilt embed st1).faissIndex = (rebuilt embed st2).faissIndex ∧
    (rebuilt embed st1).mapping = (rebuilt embed st2).mapping := by
  by_cases he : st1.store = []
  · have he2 : st2.store = [] := by rw [← h]; exact he
    unfold rebuilt
    rw [buildIndexFromDb_empty embed true st1 he,
        buildIndexFromDb_empty embed true st2 he2]
    exact ⟨rfl, rfl⟩
  · have he2 : st2.store ≠ [] := by rw [← h]; exact he
    unfold rebuilt
    rw [buildIndexFromDb_ok embed st1 he, buildIndexFromDb_ok embed st2 he2]
    constructor
    · show some (⟨st1.store.map (fun r => embed r.content)⟩ : FaissIndex) =
        some ⟨st2.store.map (fun r => embed r.content)⟩
      rw [h]
    · show st1.store.map (fun r => Doc.mk r.title r.content) =
        st2.store.map (fun r => Doc.mk r.title r.content)
      rw [h]

/-- C9: rebuilding twice in a row with no intervening mutation is
idempotent: the second rebuild produces the same index and mapping as
the first, hence identical search labels and distances for every fixed
query vector. -/
theorem rebuild_idempotent (embed : String → Vec) (st : AppState) :
    (rebuilt embed (rebuilt embed st)).faissIndex =
      (rebuilt embed st).faissIndex ∧
    (rebuilt embed (rebuilt embed st)).mapping = (rebuilt embed st).mapping ∧
    ∀ (q : Vec) (k : Nat),
      searchState (rebuilt embed (rebuilt embed st)) q k =
        searchState (rebuilt embed st) q k := by
  have hpair := rebuilt_of_store_eq embed (rebuilt embed st) st
    (buildIndexFromDb_store embed true st)
  refine ⟨hpair.1, hpair.2, fun q k => ?_⟩
  unfold searchState
  rw [hpair.1]

end ISS
